import Mathlib

/-!
Verification of the push2-python action-registration/dispatch core.

The definitions below are a shallow embedding of `push2_python/__init__.py`:
the global `action_handler_registry` (a `defaultdict(list)` keyed by action
name), the `action_handler` registration decorator, `Push2.trigger_action`,
`Push2.on_midi_message`, `Push2.__init__` and `Push2.send_midi_to_push`.
Handlers are identified opaquely; their runtime behaviour is a parameter
(`behave`), and dispatch is given a trace semantics recording which handler
was invoked with which positional arguments.
-/

namespace Push2Python

/-! ### Action name constants

Modelled from the spec: the action classes form a fixed closed set of
distinct identifiers defined in the constants module, which is not under
src/; only their identity and distinctness matter here. -/

def ACTION_BUTTON_PRESSED : String := "on_button_pressed"

def ACTION_BUTTON_RELEASED : String := "on_button_released"

def ACTION_TOUCHSTRIP_TOUCHED : String := "on_touchstrip_touched"

def ACTION_PAD_PRESSED : String := "on_pad_pressed"

def ACTION_PAD_RELEASED : String := "on_pad_released"

def ACTION_PAD_AFTERTOUCH : String := "on_pad_aftertouch"

/-- Modelled from the spec: `get_individual_button_action_name` (buttons
module, not under src/) returns an identifier combining the action class
with the symbolic button name. -/
def get_individual_button_action_name (action_name button_name : String) : String :=
  action_name ++ "-" ++ button_name

/-- Modelled from the spec: `get_individual_pad_action_name` (pads module,
not under src/) returns an identifier combining the action class with the
canonical pad address, given as a pad number or as (i,j) coordinates; the
concrete canonicalization table is external and opaque here. -/
def get_individual_pad_action_name (action_name : String) (pad_n : Option Nat)
    (pad_ij : Option (Nat × Nat)) : String :=
  match pad_ij with
  | some ij => action_name ++ "-" ++ toString ij.1 ++ "-" ++ toString ij.2
  | none =>
    match pad_n with
    | some n => action_name ++ "-" ++ toString n
    | none => action_name

/-- Handler callables are identified opaquely by a natural number. -/
abbrev Handler := Nat

/-- The global `action_handler_registry`: a `defaultdict(list)` from action
names to the ordered list of handlers registered under that name, modelled
as an association list in key-insertion order (dict keys are unique in any
state reachable through the operations below). -/
abbrev Registry := List (String × List Handler)

/-- Ordered key list of the registry (Python dict key order). -/
def registryKeys (reg : Registry) : List String :=
  reg.map (fun p => p.1)

/-- Dictionary lookup: the handler list stored under `action`, if the key is
present. -/
def lookupAction (reg : Registry) (action : String) : Option (List Handler) :=
  (reg.find? (fun p => p.1 == action)).map (fun p => p.2)

/-- Translation of `action_handler_registry[action].append(func)` on the
`defaultdict(list)`: appends `func` to the list of the entry for `action`
when the key is present, otherwise inserts the key at the end of the dict
with a fresh one-element list. -/
def registryAppend : Registry → String → Handler → Registry
  | [], action, func => [(action, [func])]
  | p :: rest, action, func =>
    if p.1 == action then (p.1, p.2 ++ [func]) :: rest
    else p :: registryAppend rest action func

/-- Translation of the identifier resolution performed inside
`action_handler`'s wrapper: start from `action_name`; when the action is a
button press/release and a button name is given, specialize to the
individual button action name; then, when the action is a pad
press/release/aftertouch and a pad number or pad coordinates are given,
specialize to the individual pad action name. The two reassignments of the
local `action` happen in this order, as in the source. -/
def action_handler_resolve (action_name : String) (button_name : Option String)
    (pad_n : Option Nat) (pad_ij : Option (Nat × Nat)) : String :=
  let action := action_name
  let action :=
    if (action_name = ACTION_BUTTON_PRESSED ∨ action_name = ACTION_BUTTON_RELEASED)
        ∧ button_name ≠ none then
      get_individual_button_action_name action_name (button_name.getD "")
    else action
  let action :=
    if (action_name = ACTION_PAD_PRESSED ∨ action_name = ACTION_PAD_RELEASED
          ∨ action_name = ACTION_PAD_AFTERTOUCH)
        ∧ (pad_n ≠ none ∨ pad_ij ≠ none) then
      get_individual_pad_action_name action_name pad_n pad_ij
    else action
  action

/-- Translation of `action_handler(action_name, button_name, pad_n, pad_ij)`
applied to a handler `func`: resolves the action identifier, appends `func`
to the registry list for that identifier, and returns `func` unchanged
(decorator protocol). The debug log call is elided. -/
def action_handler (action_name : String) (button_name : Option String)
    (pad_n : Option Nat) (pad_ij : Option (Nat × Nat)) (func : Handler)
    (reg : Registry) : Registry × Handler :=
  (registryAppend reg (action_handler_resolve action_name button_name pad_n pad_ij) func,
   func)

/-- Python runtime values appearing as positional arguments of
`trigger_action`: the facade instance (`self`), strings, integers. -/
inductive PyVal where
  | facade
  | str (s : String)
  | int (n : Int)
  deriving DecidableEq

/-- Python `==` between a dict key (a string) and the value `args[0]`:
equality holds only against an equal string, and comparison with a value of
another type is `False`, not an error. -/
def keyMatches (action : String) : PyVal → Bool
  | PyVal.str s => action == s
  | _ => false

/-- Errors that can escape `trigger_action`: the `IndexError` raised by
indexing an empty sequence (`args[0]` or `func[0]`), or an exception raised
by an invoked handler. -/
inductive TriggerErr (ε : Type) where
  | indexError
  | handlerError (e : ε)
  deriving DecidableEq

/-- Translation of the `for action, func in action_handler_registry.items():`
loop in `trigger_action`: for each entry whose key compares equal to
`args[0]`, the FIRST handler of the entry's list is invoked
(`func[0](*new_args, **kwargs)`), with an `IndexError` on an empty list.
`behave` gives each handler's outcome on the given arguments. Returns the
invocation trace (each invoked handler with its full argument list) and the
first uncaught error, if any; iteration stops at an error. -/
def trigger_loop {ε : Type} (behave : Handler → List PyVal → Except ε Unit)
    (action_name : PyVal) (new_args : List PyVal) :
    Registry → List (Handler × List PyVal) × Option (TriggerErr ε)
  | [] => ([], none)
  | (action, func) :: rest =>
    if keyMatches action action_name then
      match func with
      | [] => ([], some TriggerErr.indexError)
      | f :: _ =>
        match behave f new_args with
        | Except.error e => ([(f, new_args)], some (TriggerErr.handlerError e))
        | Except.ok _ =>
          let r := trigger_loop behave action_name new_args rest
          ((f, new_args) :: r.1, r.2)
    else trigger_loop behave action_name new_args rest

/-- Translation of `Push2.trigger_action(*args, **kwargs)`: reads `args[0]`
as the action name (an `IndexError` when `args` is empty), builds
`new_args = [self] + list(args[1:])`, and runs the registry loop. Keyword
arguments are elided. -/
def trigger_action {ε : Type} (behave : Handler → List PyVal → Except ε Unit)
    (reg : Registry) (args : List PyVal) :
    List (Handler × List PyVal) × Option (TriggerErr ε) :=
  match args with
  | [] => ([], some TriggerErr.indexError)
  | a0 :: rest => trigger_loop behave a0 (PyVal.facade :: rest) reg

/-- One public operation touching the handler registry. -/
inductive FacadeOp where
  | register (action_name : String) (button_name : Option String)
      (pad_n : Option Nat) (pad_ij : Option (Nat × Nat)) (func : Handler)
  | trigger (args : List PyVal)

/-- State transformer over the registry for the two operations that touch
it. `action_handler` writes the registry; the body of `trigger_action` only
reads it (it iterates `action_handler_registry.items()` and performs no
write and no defaultdict key insertion), so the post-state of a trigger is
its pre-state. -/
def facadeStep {ε : Type} (behave : Handler → List PyVal → Except ε Unit)
    (reg : Registry) :
    FacadeOp → Registry × (List (Handler × List PyVal) × Option (TriggerErr ε))
  | FacadeOp.register a b n ij f => ((action_handler a b n ij f reg).1, ([], none))
  | FacadeOp.trigger args => (reg, trigger_action behave reg args)

/-- Exceptions that `Push2Display.configure_usb_device` can raise, caught in
`Push2.__init__`. -/
inductive DisplayInitErr where
  | push2USBDeviceNotFound
  | push2USBDeviceConfigurationError
  deriving DecidableEq

/-- Messages logged with `logging.error` during `Push2.__init__`. -/
inductive LogMsg where
  | couldNotInitDisplay (e : DisplayInitErr)
  | couldNotInitMIDI
  deriving DecidableEq

/-- Outcomes of the external transport calls made during construction:
whether `display.configure_usb_device()` raises (and which error), and
whether `mido.open_input` / `mido.open_output` raise `OSError`. -/
structure Env where
  displayResult : Option DisplayInitErr
  openInputOk : Bool
  openOutputOk : Bool

/-- Attributes of the `Push2` facade tracked by the model. Port handles are
opaque (`Option Unit`, `none` meaning the class-level default `None`);
`callback_attached` records whether `midi_in_port.callback` was assigned;
`display_configured` whether the display USB device was configured;
`pads_ready`, `buttons_ready`, `touchstrip_ready` whether the subsystem
decoder objects were constructed. -/
structure Push2State where
  midi_in_port : Option Unit
  midi_out_port : Option Unit
  callback_attached : Bool
  display_configured : Bool
  pads_ready : Bool
  buttons_ready : Bool
  touchstrip_ready : Bool
  deriving DecidableEq

/-- Translation of `Push2.configure_midi_ports`: opens the input port, then
the output port; an `OSError` from either open is re-raised as
`Push2MIDIeviceNotFound` (`some ()` in the error component). A port opened
before the failing call stays assigned. -/
def configure_midi_ports (env : Env) (st : Push2State) : Push2State × Option Unit :=
  if env.openInputOk then
    let st1 := { st with midi_in_port := some () }
    if env.openOutputOk then ({ st1 with midi_out_port := some () }, none)
    else (st1, some ())
  else (st, some ())

/-- Translation of `Push2.__init__`: configures the display inside a `try`
catching `Push2USBDeviceNotFound` and `Push2USBDeviceConfigurationError`
(logging the error); calls `configure_midi_ports` and attaches the MIDI
input callback inside a `try` catching `Push2MIDIeviceNotFound` (logging the
error); then constructs the three subsystem decoders. Every exception these
calls can raise is caught, so the translation is a total function. The
map-file load is modelled as succeeding (the descriptor ships with the
package) and the loaded map is not tracked. -/
def push2_init (env : Env) : Push2State × List LogMsg :=
  let st0 : Push2State :=
    { midi_in_port := none, midi_out_port := none, callback_attached := false,
      display_configured := false, pads_ready := false, buttons_ready := false,
      touchstrip_ready := false }
  let dres := match env.displayResult with
    | none => ({ st0 with display_configured := true }, ([] : List LogMsg))
    | some e => (st0, [LogMsg.couldNotInitDisplay e])
  let mres := configure_midi_ports env dres.1
  let cres := match mres.2 with
    | none => ({ mres.1 with callback_attached := true }, ([] : List LogMsg))
    | some _ => (mres.1, [LogMsg.couldNotInitMIDI])
  ({ cres.1 with pads_ready := true, buttons_ready := true, touchstrip_ready := true },
    dres.2 ++ cres.2)

/-- Translation of `Push2.send_midi_to_push(msg)`: sends `msg` on the output
port when it is set, otherwise does nothing. Returns the list of messages
handed to the transport. -/
def send_midi_to_push {μ : Type} (st : Push2State) (msg : μ) : List μ :=
  match st.midi_out_port with
  | some _ => [msg]
  | none => []

/-- The three control subsystems whose decoders the MIDI router delegates
to. -/
inductive Subsystem where
  | pads
  | buttons
  | touchstrip
  deriving DecidableEq

/-- Translation of `Push2.on_midi_message(message)`: delegates the raw
message to `self.pads`, `self.buttons` and `self.touchtrip`, in that order;
the decoders (`padsDec`, `buttonsDec`, `stripDec`, external collaborators)
each emit a list of semantic events. The trailing debug log is elided.
Returns the delegation trace: which subsystem was called, with which
message, and the events it emitted. -/
def on_midi_message {μ ε : Type} (padsDec buttonsDec stripDec : μ → List ε)
    (message : μ) : List (Subsystem × μ × List ε) :=
  [(Subsystem.pads, message, padsDec message),
   (Subsystem.buttons, message, buttonsDec message),
   (Subsystem.touchstrip, message, stripDec message)]

/-- Registry obtained by registering the handler `7` twice under the generic
pad-pressed action (two `action_handler` calls with no selector), starting
from an empty registry. -/
def twiceReg : Registry :=
  (action_handler ACTION_PAD_PRESSED none none none 7
    ((action_handler ACTION_PAD_PRESSED none none none 7 ([] : Registry)).1)).1

/-! ### Registry lemmas -/

/-- Appending under `action` updates exactly the list stored under `action`:
its new value is the old list (empty when the key was absent) with `func`
appended at the end. -/
theorem lookupAction_registryAppend_self (reg : Registry) (action : String)
    (func : Handler) :
    lookupAction (registryAppend reg action func) action =
      some ((lookupAction reg action).getD [] ++ [func]) := by
  induction reg with
  | nil => simp [registryAppend, lookupAction]
  | cons p rest ih =>
    cases hp : (p.1 == action) with
    | true => simp [registryAppend, lookupAction, hp]
    | false => simpa [registryAppend, lookupAction, hp] using ih

/-- Appending under `action` leaves the list stored under every other key
unchanged. -/
theorem lookupAction_registryAppend_other (reg : Registry) (action other : String)
    (func : Handler) (h : other ≠ action) :
    lookupAction (registryAppend reg action func) other = lookupAction reg other := by
  induction reg with
  | nil =>
    have : (action == other) = false := beq_eq_false_iff_ne.mpr (Ne.symm h)
    simp [registryAppend, lookupAction, this]
  | cons p rest ih =>
    cases hp : (p.1 == action) with
    | true =>
      have hpo : (p.1 == other) = false := by
        have : p.1 = action := eq_of_beq hp
        exact beq_eq_false_iff_ne.mpr (this ▸ Ne.symm h)
      simp [registryAppend, lookupAction, hp, hpo]
    | false =>
      cases hq : (p.1 == other) with
      | true => simp [registryAppend, lookupAction, hp, hq]
      | false => simpa [registryAppend, lookupAction, hp, hq] using ih

/-- Appending under `action` keeps the key order: the key list is unchanged
when `action` was present, and `action` is inserted at the end when it was
absent. -/
theorem registryKeys_registryAppend (reg : Registry) (action : String)
    (func : Handler) :
    registryKeys (registryAppend reg action func) =
      if action ∈ registryKeys reg then registryKeys reg
      else registryKeys reg ++ [action] := by
  induction reg with
  | nil => simp [registryAppend, registryKeys]
  | cons p rest ih =>
    cases hp : (p.1 == action) with
    | true =>
      have he : p.1 = action := eq_of_beq hp
      have hmem : action ∈ registryKeys (p :: rest) := by
        simp [registryKeys]
        exact Or.inl he.symm
      simp [registryAppend, registryKeys, hmem, he]
    | false =>
      have hne : ¬ action = p.1 := fun hh => by simp [hh] at hp
      have hstep : registryAppend (p :: rest) action func
          = p :: registryAppend rest action func := by
        simp [registryAppend, hp]
      rw [hstep]
      simp only [registryKeys, List.map_cons] at ih ⊢
      rw [ih]
      by_cases hm : action ∈ List.map (fun q => q.1) rest <;> simp [hm, hne]

/-- The dispatch loop over registry entries none of whose keys match the
requested action name invokes nothing and raises nothing. -/
theorem trigger_loop_of_no_match {ε : Type}
    (behave : Handler → List PyVal → Except ε Unit) (action_name : PyVal)
    (new_args : List PyVal) (reg : Registry)
    (h : ∀ p ∈ reg, keyMatches p.1 action_name = false) :
    trigger_loop behave action_name new_args reg = ([], none) := by
  induction reg with
  | nil => rfl
  | cons p rest ih =>
    have hp := h p (List.mem_cons_self p rest)
    have hrest := ih (fun q hq => h q (List.mem_cons_of_mem p hq))
    simp [trigger_loop, hp, hrest]

/-- When the registry keys are unique and the single-element handler list
`[h]` is stored under `idStr`, the dispatch loop invokes `h` exactly once
with the given arguments, whether or not the invocation raises. -/
theorem trigger_loop_lookup_single {ε : Type}
    (behave : Handler → List PyVal → Except ε Unit) (idStr : String)
    (na : List PyVal) (h : Handler) :
    ∀ reg : Registry, (registryKeys reg).Nodup →
      lookupAction reg idStr = some [h] →
      (trigger_loop behave (PyVal.str idStr) na reg).1 = [(h, na)] := by
  intro reg
  induction reg with
  | nil => intro _ hlk; simp [lookupAction] at hlk
  | cons p rest ih =>
    obtain ⟨a, l⟩ := p
    intro hnd hlk
    cases hp : (a == idStr) with
    | true =>
      have he : a = idStr := eq_of_beq hp
      have hl : l = [h] := by
        simpa [lookupAction, List.find?, hp] using hlk
      have hnotin : a ∉ registryKeys rest :=
        (List.nodup_cons.mp (by simpa [registryKeys] using hnd)).1
      have hrest : trigger_loop behave (PyVal.str idStr) na rest = ([], none) := by
        apply trigger_loop_of_no_match
        intro q hq
        have hqk : q.1 ∈ registryKeys rest := List.mem_map_of_mem (fun p => p.1) hq
        have hne : q.1 ≠ idStr := fun hh => hnotin (he ▸ hh ▸ hqk)
        simpa [keyMatches] using beq_eq_false_iff_ne.mpr hne
      cases hb : behave h na with
      | error e => simp [trigger_loop, keyMatches, hp, hl, hb]
      | ok u => simp [trigger_loop, keyMatches, hp, hl, hb, hrest]
    | false =>
      have hnd2 : (registryKeys rest).Nodup :=
        (List.nodup_cons.mp (by simpa [registryKeys] using hnd)).2
      have hlk2 : lookupAction rest idStr = some [h] := by
        simpa [lookupAction, List.find?, hp] using hlk
      have hstep : trigger_loop behave (PyVal.str idStr) na ((a, l) :: rest)
          = trigger_loop behave (PyVal.str idStr) na rest := by
        simp [trigger_loop, keyMatches, hp]
      rw [hstep]
      exact ih hnd2 hlk2

/-- When the handler list stored under `idStr` starts with `h` and invoking
`h` raises `e`, the dispatch loop performs exactly that one invocation and
stops with the handler's error, unhandled. -/
theorem trigger_loop_first_match_error {ε : Type}
    (behave : Handler → List PyVal → Except ε Unit) (idStr : String)
    (na : List PyVal) (h : Handler) (hs : List Handler) (e : ε) :
    ∀ reg : Registry, lookupAction reg idStr = some (h :: hs) →
      behave h na = Except.error e →
      trigger_loop behave (PyVal.str idStr) na reg
        = ([(h, na)], some (TriggerErr.handlerError e)) := by
  intro reg
  induction reg with
  | nil => intro hlk _; simp [lookupAction] at hlk
  | cons p rest ih =>
    obtain ⟨a, l⟩ := p
    intro hlk hb
    cases hp : (a == idStr) with
    | true =>
      have hl : l = h :: hs := by
        simpa [lookupAction, List.find?, hp] using hlk
      simp [trigger_loop, keyMatches, hp, hl, hb]
    | false =>
      have hlk2 : lookupAction rest idStr = some (h :: hs) := by
        simpa [lookupAction, List.find?, hp] using hlk
      have hstep : trigger_loop behave (PyVal.str idStr) na ((a, l) :: rest)
          = trigger_loop behave (PyVal.str idStr) na rest := by
        simp [trigger_loop, keyMatches, hp]
      rw [hstep]
      exact ih hlk2 hb

/-! ### Claim theorems -/

/-- C1 (failing input for the claim "dispatch invokes every handler, in
registration order; a twice-registered handler runs twice"): after
registering handler `7` twice under the generic pad-pressed action, both
registrations are in the registry list, yet `trigger_action` performs
exactly one invocation — the code calls only `func[0]`, the first element of
the handler list. -/
theorem c1_only_first_handler_invoked :
    lookupAction twiceReg ACTION_PAD_PRESSED = some [7, 7] ∧
    (trigger_action (fun _ _ => (Except.ok () : Except Unit Unit)) twiceReg
        [PyVal.str ACTION_PAD_PRESSED]).1 = [(7, [PyVal.facade])] :=
  ⟨rfl, rfl⟩

/-- C2: when the registry (with unique dict keys) stores exactly the
one-element list `[h]` under `idStr`, dispatching `idStr` with a payload
invokes `h` exactly once, with the facade as first argument followed by the
payload. -/
theorem c2_single_handler_invoked_once {ε : Type}
    (behave : Handler → List PyVal → Except ε Unit) (reg : Registry)
    (idStr : String) (h : Handler) (payload : List PyVal)
    (hnd : (registryKeys reg).Nodup)
    (hlk : lookupAction reg idStr = some [h]) :
    (trigger_action behave reg (PyVal.str idStr :: payload)).1
      = [(h, PyVal.facade :: payload)] := by
  simpa [trigger_action] using
    trigger_loop_lookup_single behave idStr (PyVal.facade :: payload) h reg hnd hlk

/-- Witness for C2 at a concrete input. -/
theorem c2_single_handler_invoked_once_witness :
    (trigger_action (fun _ _ => (Except.ok () : Except Unit Unit))
        [("on_pad_pressed", [5])] [PyVal.str "on_pad_pressed", PyVal.int 100]).1
      = [(5, [PyVal.facade, PyVal.int 100])] :=
  c2_single_handler_invoked_once (fun _ _ => (Except.ok () : Except Unit Unit))
    [("on_pad_pressed", [5])] "on_pad_pressed" 5 [PyVal.int 100]
    (by decide) (by decide)

/-- C3: the router delegates every raw message to the three subsystem
decoders unconditionally — for every message and every choice of decoders —
in the fixed order pads, buttons, touchstrip, each decoder receiving the
message unchanged, and the emitted event lists appear in that same
delegation order. -/
theorem c3_router_delegates_all_in_order {μ ε : Type}
    (padsDec buttonsDec stripDec : μ → List ε) (message : μ) :
    (on_midi_message padsDec buttonsDec stripDec message).map (fun x => (x.1, x.2.1))
      = [(Subsystem.pads, message), (Subsystem.buttons, message),
         (Subsystem.touchstrip, message)] ∧
    (on_midi_message padsDec buttonsDec stripDec message).map (fun x => x.2.2)
      = [padsDec message, buttonsDec message, stripDec message] :=
  ⟨rfl, rfl⟩

/-- C4: for every outcome of the external transport calls, construction
completes (the three subsystem decoders are built); a display failure is
logged and leaves the display unconfigured; a MIDI failure is logged, leaves
the output port unset and the callback unattached, and then
`send_midi_to_push` is a silent no-op. -/
theorem c4_init_partial_failure (env : Env) {μ : Type} (msg : μ) :
    ((push2_init env).1.pads_ready = true ∧ (push2_init env).1.buttons_ready = true ∧
      (push2_init env).1.touchstrip_ready = true) ∧
    (∀ e : DisplayInitErr, env.displayResult = some e →
      LogMsg.couldNotInitDisplay e ∈ (push2_init env).2 ∧
      (push2_init env).1.display_configured = false) ∧
    ((env.openInputOk = false ∨ env.openOutputOk = false) →
      LogMsg.couldNotInitMIDI ∈ (push2_init env).2 ∧
      (push2_init env).1.midi_out_port = none ∧
      (push2_init env).1.callback_attached = false ∧
      send_midi_to_push (push2_init env).1 msg = []) := by
  obtain ⟨dr, iOk, oOk⟩ := env
  cases dr <;> cases iOk <;> cases oOk <;>
    simp [push2_init, configure_midi_ports, send_midi_to_push]

/-- Witness for C4 at a concrete input: display USB device missing and MIDI
output open failing. -/
theorem c4_init_partial_failure_witness :
    LogMsg.couldNotInitMIDI
        ∈ (push2_init ⟨some DisplayInitErr.push2USBDeviceNotFound, true, false⟩).2 ∧
    send_midi_to_push
        (push2_init ⟨some DisplayInitErr.push2USBDeviceNotFound, true, false⟩).1
        (0 : Int) = [] := by
  have h := (c4_init_partial_failure
    ⟨some DisplayInitErr.push2USBDeviceNotFound, true, false⟩ (0 : Int)).2.2 (Or.inr rfl)
  exact ⟨h.1, h.2.2.2⟩

/-- C5: dispatching an action identifier that is not a key of the registry
invokes no handler and raises no error: `trigger_action` returns the empty
invocation trace and no error. -/
theorem c5_unregistered_action_noop {ε : Type}
    (behave : Handler → List PyVal → Except ε Unit) (reg : Registry)
    (idStr : String) (payload : List PyVal)
    (hlk : lookupAction reg idStr = none) :
    trigger_action behave reg (PyVal.str idStr :: payload) = ([], none) := by
  have hfind : reg.find? (fun p => p.1 == idStr) = none := by
    cases hf : reg.find? (fun p => p.1 == idStr) with
    | none => rfl
    | some q => simp [lookupAction, hf] at hlk
  have hall : ∀ p ∈ reg, keyMatches p.1 (PyVal.str idStr) = false := by
    intro q hq
    have hnq := List.find?_eq_none.mp hfind q hq
    simpa [keyMatches] using Bool.eq_false_iff.mpr hnq
  simpa [trigger_action] using
    trigger_loop_of_no_match behave (PyVal.str idStr) (PyVal.facade :: payload) reg hall

/-- Witness for C5 at a concrete input. -/
theorem c5_unregistered_action_noop_witness :
    trigger_action (fun _ _ => (Except.ok () : Except Unit Unit))
        [("on_button_pressed", [1])] [PyVal.str "nope"] = ([], none) :=
  c5_unregistered_action_noop (fun _ _ => (Except.ok () : Except Unit Unit))
    [("on_button_pressed", [1])] "nope" [] (by decide)

/-- C6: `action_handler` with no selector registers under the generic
identifier, the action name itself; and for an action that is neither a
button-class nor a pad-class event (e.g. the touchstrip action), any
supplied selector is ignored and the generic identifier is used. -/
theorem c6_resolve_generic (action_name : String) (button_name : Option String)
    (pad_n : Option Nat) (pad_ij : Option (Nat × Nat)) :
    action_handler_resolve action_name none none none = action_name ∧
    (¬ (action_name = ACTION_BUTTON_PRESSED ∨ action_name = ACTION_BUTTON_RELEASED) →
      ¬ (action_name = ACTION_PAD_PRESSED ∨ action_name = ACTION_PAD_RELEASED
          ∨ action_name = ACTION_PAD_AFTERTOUCH) →
      action_handler_resolve action_name button_name pad_n pad_ij = action_name) := by
  constructor
  · simp [action_handler_resolve]
  · intro h1 h2
    simp [action_handler_resolve, h1, h2]

/-- Witness for C6 at a concrete input: the touchstrip action with all three
selector kinds supplied still resolves to the generic identifier. -/
theorem c6_resolve_generic_witness :
    action_handler_resolve ACTION_TOUCHSTRIP_TOUCHED (some "play") (some 36)
        (some (0, 3)) = ACTION_TOUCHSTRIP_TOUCHED :=
  (c6_resolve_generic ACTION_TOUCHSTRIP_TOUCHED (some "play") (some 36)
      (some (0, 3))).2 (by decide) (by decide)

/-- C7: an exception raised by the invoked handler is not caught by
`trigger_action`: the dispatch stops, performs no further handling or retry,
and the result error is exactly the handler's error. -/
theorem c7_handler_error_propagates {ε : Type}
    (behave : Handler → List PyVal → Except ε Unit) (reg : Registry)
    (idStr : String) (h : Handler) (hs : List Handler) (payload : List PyVal)
    (e : ε)
    (hlk : lookupAction reg idStr = some (h :: hs))
    (hb : behave h (PyVal.facade :: payload) = Except.error e) :
    trigger_action behave reg (PyVal.str idStr :: payload)
      = ([(h, PyVal.facade :: payload)], some (TriggerErr.handlerError e)) := by
  simpa [trigger_action] using
    trigger_loop_first_match_error behave idStr (PyVal.facade :: payload) h hs e reg hlk hb

/-- Witness for C7 at a concrete input. -/
theorem c7_handler_error_propagates_witness :
    trigger_action (fun _ _ => (Except.error 42 : Except Nat Unit)) [("x", [9])]
        [PyVal.str "x"]
      = ([(9, [PyVal.facade])], some (TriggerErr.handlerError 42)) :=
  c7_handler_error_propagates (fun _ _ => (Except.error 42 : Except Nat Unit))
    [("x", [9])] "x" 9 [] [] 42 (by decide) rfl

/-- C8: registration is append-only: `action_handler` returns the handler
unchanged, appends it at the end of the list for exactly the resolved
identifier, leaves the list of every other identifier unchanged, and keeps
the existing key order (adding the resolved key at the end only when it was
absent). -/
theorem c8_registry_append_only (reg : Registry) (action_name : String)
    (button_name : Option String) (pad_n : Option Nat)
    (pad_ij : Option (Nat × Nat)) (func : Handler) :
    (action_handler action_name button_name pad_n pad_ij func reg).2 = func ∧
    lookupAction (action_handler action_name button_name pad_n pad_ij func reg).1
        (action_handler_resolve action_name button_name pad_n pad_ij)
      = some ((lookupAction reg
          (action_handler_resolve action_name button_name pad_n pad_ij)).getD []
            ++ [func]) ∧
    (∀ other : String,
      other ≠ action_handler_resolve action_name button_name pad_n pad_ij →
      lookupAction (action_handler action_name button_name pad_n pad_ij func reg).1
          other = lookupAction reg other) ∧
    registryKeys (action_handler action_name button_name pad_n pad_ij func reg).1
      = (if action_handler_resolve action_name button_name pad_n pad_ij
            ∈ registryKeys reg
         then registryKeys reg
         else registryKeys reg
            ++ [action_handler_resolve action_name button_name pad_n pad_ij]) :=
  ⟨rfl,
   lookupAction_registryAppend_self reg
     (action_handler_resolve action_name button_name pad_n pad_ij) func,
   fun other ho => lookupAction_registryAppend_other reg
     (action_handler_resolve action_name button_name pad_n pad_ij) other func ho,
   registryKeys_registryAppend reg
     (action_handler_resolve action_name button_name pad_n pad_ij) func⟩

/-- Witness for C8 at a concrete input. -/
theorem c8_registry_append_only_witness :
    (action_handler ACTION_TOUCHSTRIP_TOUCHED none none none 3 [("a", [1])]).2 = 3 ∧
    lookupAction (action_handler ACTION_TOUCHSTRIP_TOUCHED none none none 3
        [("a", [1])]).1 "a" = lookupAction [("a", [1])] "a" :=
  ⟨(c8_registry_append_only [("a", [1])] ACTION_TOUCHSTRIP_TOUCHED none none none 3).1,
   (c8_registry_append_only [("a", [1])] ACTION_TOUCHSTRIP_TOUCHED none none none
     3).2.2.1 "a" (by decide)⟩

/-- C9: dispatch does not mutate the registry: after a `trigger` operation
the registry is the same state, with every key's handler list and the key
order unchanged; `trigger_action` only reads the registry. -/
theorem c9_trigger_preserves_registry {ε : Type}
    (behave : Handler → List PyVal → Except ε Unit) (reg : Registry)
    (args : List PyVal) :
    (facadeStep behave reg (FacadeOp.trigger args)).1 = reg ∧
    (∀ action : String,
      lookupAction (facadeStep behave reg (FacadeOp.trigger args)).1 action
        = lookupAction reg action) ∧
    registryKeys (facadeStep behave reg (FacadeOp.trigger args)).1
      = registryKeys reg :=
  ⟨rfl, fun _ => rfl, rfl⟩

/-- C10: `trigger_action` with an empty argument list fails with an
`IndexError` (from reading `args[0]`); consequently an error-free run
requires a non-empty argument list. -/
theorem c10_empty_args_index_error {ε : Type}
    (behave : Handler → List PyVal → Except ε Unit) (reg : Registry) :
    trigger_action behave reg ([] : List PyVal) = ([], some TriggerErr.indexError) ∧
    (∀ args : List PyVal, (trigger_action behave reg args).2 = none → args ≠ []) := by
  refine ⟨rfl, fun args hnone hargs => ?_⟩
  subst hargs
  simp [trigger_action] at hnone

/-- Witness for C10 at a concrete input. -/
theorem c10_empty_args_index_error_witness : ([PyVal.str "x"] : List PyVal) ≠ [] :=
  (c10_empty_args_index_error (fun _ _ => (Except.ok () : Except Unit Unit)) []).2
    [PyVal.str "x"] rfl

end Push2Python
